import Mathlib

/-!
Verification of the case-management document extraction pipeline.

This development shallowly embeds the data model (`lib/types`), the in-memory
case store (`lib/store`), the extraction route (`app/api/extract/route` /
`src/unnamed/part_006`), and the client-side attach / detach / approve
operations (`components/case-view` / `src/unnamed/part_002`) of the `caa`
repository, and proves or refutes the frozen claims about them.

Conventions of the embedding:
- JS strings are Lean `String`s; JS `number`s used as indices are `Int`
  (the routes only compare them to 0 and 1).
- Optional TS fields / `undefined` are `Option`; `a ?? b` is `nullishOr`;
  JS falsiness of a possibly-undefined string is `jsFalsy` (undefined or "").
- `Record<string, string>` payloads are association lists (`RawData`) with
  first-match lookup, mirroring JS property access.
- Mutation of the module-level `Map` store is explicit state passing on
  `Store := String → Option Case`.
- `cloneDirectors` in the source exists only to avoid aliasing of the mutable
  record; in a pure embedding it is the identity and is therefore dropped.
-/

namespace CAA

/-! ## JS string primitives (regexes `\s`, `\D`, `trim`, `toUpperCase`) -/

/-- Characters matched by the JS regex class `\s` (as used in
`replace(/\s+/g, "")`) and stripped by `String.prototype.trim`. -/
def jsWhitespace (c : Char) : Bool :=
  c == ' ' || c == '\t' || c == '\n' || c == '\r' ||
  c.toNat == 0x0b || c.toNat == 0x0c || c.toNat == 0xa0 ||
  c.toNat == 0x1680 || (0x2000 ≤ c.toNat && c.toNat ≤ 0x200a) ||
  c.toNat == 0x2028 || c.toNat == 0x2029 || c.toNat == 0x202f ||
  c.toNat == 0x205f || c.toNat == 0x3000 || c.toNat == 0xfeff

/-- `s.trim()`: strip leading and trailing whitespace. -/
def jsTrim (s : String) : String :=
  ⟨((s.data.dropWhile jsWhitespace).reverse.dropWhile jsWhitespace).reverse⟩

/-- `s.replace(/\s+/g, "")`: delete every whitespace character. -/
def stripWhitespace (s : String) : String :=
  ⟨s.data.filter (fun c => !jsWhitespace c)⟩

/-- `s.toUpperCase()` (ASCII letters, which is all the code relies on). -/
def jsToUpperCase (s : String) : String :=
  ⟨s.data.map Char.toUpper⟩

/-- `s.replace(/\D/g, "")`: keep only the decimal digits `0`-`9`. -/
def digitsOnly (s : String) : String :=
  ⟨s.data.filter Char.isDigit⟩

/-- `a ?? b` on possibly-undefined strings. -/
def nullishOr (a b : Option String) : Option String :=
  match a with
  | some v => some v
  | none => b

/-- JS falsiness of a possibly-undefined string: `undefined` or `""`. -/
def jsFalsy : Option String → Bool
  | none => true
  | some s => s == ""

/-! ## Data model (`lib/types`) -/

inductive DocType
  | pan
  | aadhaar
  | photo
  | signature
deriving DecidableEq, Repr

inductive DocStatus
  | pending
  | processing
  | done
  | error
deriving DecidableEq, Repr

inductive CaseStatus
  | draft
  | extracting
  | reviewing
  | complete
deriving DecidableEq, Repr

inductive InferenceMode
  | modal
  | cpu
deriving DecidableEq, Repr

/-- A loosely typed `Record<string, string>` payload from the inference
endpoint, with JS property access as first-match lookup. -/
abbrev RawData := List (String × String)

/-- `data.key` on a `Record<string, string>`. -/
def rawLookup (data : RawData) (key : String) : Option String :=
  (data.find? (fun kv => kv.1 == key)).map (·.2)

structure PanData where
  name : String
  fathers_name : String
  date_of_birth : String
  pan_number : String
deriving DecidableEq, Repr

structure AadhaarData where
  name : String
  aadhaar_number : String
  date_of_birth : String
  gender : String
  address : String
deriving DecidableEq, Repr

structure DirectorDocument where
  id : String
  type : DocType
  fileName : String
  fileUrl : String
  status : DocStatus
  contentBase64 : Option String := none
  extractedData : Option RawData := none
deriving DecidableEq, Repr

structure DirectorInfo where
  panData : Option PanData := none
  aadhaarData : Option AadhaarData := none
  documents : List DirectorDocument := []
  validated : Bool := false
  placeOfBirth : String := ""
  nationality : String := "Indian"
  residentOfIndia : String := "Yes"
  occupation : String := ""
  education : String := ""
  sharesSubscribed : String := ""
  durationAtAddress : String := ""
  email : String := ""
  mobile : String := ""
  dinNumber : String := ""
deriving DecidableEq, Repr

structure CompanyInfo where
  electricityBillUploaded : Bool := false
  latitude : String := ""
  longitude : String := ""
  nocUploaded : Bool := false
  officeEmail : String := ""
  officeMobile : String := ""
  authorizedShareCapital : String := ""
  paidUpShareCapital : String := ""
  objectives : String := ""
  otherObjectives : String := ""
deriving DecidableEq, Repr

structure ProfessionalInfo where
  name : String := ""
  membershipNo : String := ""
  address : String := ""
deriving DecidableEq, Repr

/-- The TS type is the pair `[DirectorInfo, DirectorInfo]`. -/
abbrev Directors := DirectorInfo × DirectorInfo

structure Case where
  id : String
  name : String
  createdAt : String
  status : CaseStatus
  directors : Directors
  companyInfo : CompanyInfo
  professionalInfo : ProfessionalInfo
  inferenceMode : InferenceMode
deriving DecidableEq, Repr

/-- `directors[i]` for a validated index. -/
def dirGet (d : Directors) (i : Fin 2) : DirectorInfo :=
  if i.val = 0 then d.1 else d.2

/-- `directors[i] = v` for a validated index. -/
def dirSet (d : Directors) (i : Fin 2) (v : DirectorInfo) : Directors :=
  if i.val = 0 then (v, d.2) else (d.1, v)

/-! ## Case store (`lib/store`) -/

/-- The module-level `Map<string, Case>`, as a lookup function. -/
abbrev Store := String → Option Case

def storeSet (s : Store) (k : String) (v : Case) : Store :=
  fun k' => if k' = k then some v else s k'

/-- The partial-update object accepted by `updateCase` (and by the PATCH
surface): any subset of the top-level `Case` fields. -/
structure PartialCase where
  id : Option String := none
  name : Option String := none
  createdAt : Option String := none
  status : Option CaseStatus := none
  directors : Option Directors := none
  companyInfo : Option CompanyInfo := none
  professionalInfo : Option ProfessionalInfo := none
  inferenceMode : Option InferenceMode := none
deriving DecidableEq, Repr

/-- `{ ...existing, ...updates }`: top-level shallow merge. -/
def mergeCase (existing : Case) (updates : PartialCase) : Case :=
  { id := updates.id.getD existing.id
    name := updates.name.getD existing.name
    createdAt := updates.createdAt.getD existing.createdAt
    status := updates.status.getD existing.status
    directors := updates.directors.getD existing.directors
    companyInfo := updates.companyInfo.getD existing.companyInfo
    professionalInfo := updates.professionalInfo.getD existing.professionalInfo
    inferenceMode := updates.inferenceMode.getD existing.inferenceMode }

/-- `updateCase(id, updates)` from `lib/store`: read, shallow-merge, write
back under the same key; `undefined` when the key is absent. -/
def updateCase (s : Store) (id : String) (updates : PartialCase) :
    Option Case × Store :=
  match s id with
  | none => (none, s)
  | some existing =>
    let updated := mergeCase existing updates
    (some updated, storeSet s id updated)

/-! ## Extraction route helpers (`app/api/extract/route`) -/

/-- `toPanData` from the extract route: trims the free-text fields and
canonicalizes `pan_number` by stripping whitespace and upper-casing. -/
def toPanData (data : RawData) : PanData :=
  { name := ((rawLookup data "name").map jsTrim).getD ""
    fathers_name := ((rawLookup data "fathers_name").map jsTrim).getD ""
    date_of_birth := ((rawLookup data "date_of_birth").map jsTrim).getD ""
    pan_number :=
      ((rawLookup data "pan_number").map
        (fun s => jsToUpperCase (stripWhitespace s))).getD "" }

/-- `toAadhaarData` from the extract route: regroups the digits as
`XXXX XXXX XXXX` when exactly 12 digits survive `\D` removal, otherwise
falls back to the trimmed raw value; trims (and for gender upper-cases)
the other fields. -/
def toAadhaarData (data : RawData) : AadhaarData :=
  let digits := digitsOnly ((rawLookup data "aadhaar_number").getD "")
  let formattedAadhaar :=
    if digits.length = 12 then
      (⟨digits.data.take 4⟩ : String) ++ " " ++
        (⟨(digits.data.drop 4).take 4⟩ : String) ++ " " ++
        (⟨digits.data.drop 8⟩ : String)
    else ((rawLookup data "aadhaar_number").map jsTrim).getD ""
  { name := ((rawLookup data "name").map jsTrim).getD ""
    aadhaar_number := formattedAadhaar
    date_of_birth := ((rawLookup data "date_of_birth").map jsTrim).getD ""
    gender :=
      ((rawLookup data "gender").map (fun s => jsToUpperCase (jsTrim s))).getD ""
    address := ((rawLookup data "address").map jsTrim).getD "" }

/-- `documents.find(item => item.type === t)`. -/
def findDoc (docs : List DirectorDocument) (t : DocType) : Option DirectorDocument :=
  match docs with
  | [] => none
  | doc :: rest => if doc.type = t then some doc else findDoc rest t

/-- `documents.findIndex(doc => doc.type === t)`, with `none` for `-1`. -/
def findDocIdx (docs : List DirectorDocument) (t : DocType) : Option Nat :=
  match docs with
  | [] => none
  | doc :: rest =>
    if doc.type = t then some 0 else (findDocIdx rest t).map (· + 1)

structure TargetDocRef where
  doc : DirectorDocument
  docIndex : Nat
deriving DecidableEq, Repr

/-- `getTargetDocRef` from the extract route. -/
def getTargetDocRef (directors : Directors) (i : Fin 2) (t : DocType) :
    Option TargetDocRef :=
  match findDocIdx (dirGet directors i).documents t with
  | none => none
  | some docIndex =>
    ((dirGet directors i).documents.get? docIndex).map
      (fun doc => ⟨doc, docIndex⟩)

structure CoreDocProgress where
  anyStarted : Bool
  allDone : Bool
deriving DecidableEq, Repr

/-- One iteration of the counting loop in `getCoreDocProgress`. -/
def coreDocStep (acc : Nat × Nat) (director : DirectorInfo) (t : DocType) :
    Nat × Nat :=
  match findDoc director.documents t with
  | none => acc
  | some doc =>
    (acc.1 + 1, acc.2 + (if doc.status = DocStatus.done then 1 else 0))

/-- `getCoreDocProgress` from the extract route, with its
`for director of directors / for type of ["pan","aadhaar"]` loop unrolled
over the fixed 2 x 2 iteration space. -/
def getCoreDocProgress (directors : Directors) : CoreDocProgress :=
  let acc :=
    coreDocStep
      (coreDocStep
        (coreDocStep (coreDocStep (0, 0) directors.1 DocType.pan)
          directors.1 DocType.aadhaar)
        directors.2 DocType.pan)
      directors.2 DocType.aadhaar
  { anyStarted := decide (acc.1 > 0)
    allDone := decide (acc.1 = 4) && decide (acc.2 = 4) }

/-- The status expression `allDone ? "reviewing" : anyStarted ? "extracting"
: "draft"` used by both terminal writes of the extract route. -/
def deriveStatus (directors : Directors) : CaseStatus :=
  let p := getCoreDocProgress directors
  if p.allDone then CaseStatus.reviewing
  else if p.anyStarted then CaseStatus.extracting
  else CaseStatus.draft

/-! ## Extraction route state transitions -/

/-- The directors array written by the mark-processing phase (route lines
199-209): target slot stamped `processing` with the effective content, the
director invalidated and its extracted data for the target type cleared. -/
def processingDirectors (directors : Directors) (i : Fin 2) (t : DocType)
    (tref : TargetDocRef) (content : String) : Directors :=
  let d := dirGet directors i
  let d :=
    { d with
      documents :=
        d.documents.set tref.docIndex
          { tref.doc with contentBase64 := some content
                          status := DocStatus.processing } }
  let d := { d with validated := false }
  let d :=
    if t = DocType.pan then { d with panData := none }
    else { d with aadhaarData := none }
  dirSet directors i d

/-- The directors array built by the merge phase (route lines 235-256):
re-locates the target slot in the freshly read record, stamps it `done`
with the raw payload, installs the canonicalized data and invalidates the
director; `none` when no slot of the target type is present any more. -/
def mergedDoneDirectors (directors : Directors) (i : Fin 2) (t : DocType)
    (rawData : RawData) (contentBase64 : String) : Option Directors :=
  match getTargetDocRef directors i t with
  | none => none
  | some tref =>
    let d := dirGet directors i
    let newDoc :=
      { tref.doc with
        contentBase64 := some (tref.doc.contentBase64.getD contentBase64)
        status := DocStatus.done
        extractedData := some rawData }
    let d := { d with documents := d.documents.set tref.docIndex newDoc }
    let d :=
      if t = DocType.pan then { d with panData := some (toPanData rawData) }
      else { d with aadhaarData := some (toAadhaarData rawData) }
    let d := { d with validated := false }
    some (dirSet directors i d)

/-- The directors array built by the error branch (route lines 276-283):
only the target slot's status becomes `error`. -/
def errorDirectors (directors : Directors) (i : Fin 2) (t : DocType) :
    Option Directors :=
  match getTargetDocRef directors i t with
  | none => none
  | some tref =>
    let d := dirGet directors i
    some (dirSet directors i
      { d with
        documents :=
          d.documents.set tref.docIndex
            { tref.doc with status := DocStatus.error } })

/-- The `updateCase(caseId, { directors, inferenceMode: "modal", status:
allDone ? "reviewing" : anyStarted ? "extracting" : "draft" })` call shared
by both terminal writes. -/
def commitWrite (s : Store) (caseId : String) (md : Directors) : Store :=
  (updateCase s caseId
    { directors := some md
      inferenceMode := some InferenceMode.modal
      status := some (deriveStatus md) }).2

inductive ExtractOutcome
  | success (data : RawData)
  | failure (status : Nat) (message : String)
deriving DecidableEq, Repr

/-- Merge phase of the extract route (lines 230-272): re-read the latest
record, merge the `done` result into the target slot only, persist. -/
def mergePhase (s : Store) (caseId : String) (i : Fin 2) (t : DocType)
    (rawData : RawData) (content : String) : ExtractOutcome × Store :=
  match s caseId with
  | none => (.failure 404 "Case not found", s)
  | some latestCase =>
    match mergedDoneDirectors latestCase.directors i t rawData content with
    | none =>
      (.failure 409 "Document was removed while extraction was in progress.", s)
    | some md => (.success rawData, commitWrite s caseId md)

/-- Error branch of the extract route (lines 273-296): re-read the latest
record, stamp only the target slot `error` when it still exists, persist,
and answer 502 in every case. -/
def errorPhase (s : Store) (caseId : String) (i : Fin 2) (t : DocType)
    (msg : String) : ExtractOutcome × Store :=
  match s caseId with
  | none => (.failure 502 msg, s)
  | some latestCase =>
    match errorDirectors latestCase.directors i t with
    | none => (.failure 502 msg, s)
    | some md => (.failure 502 msg, commitWrite s caseId md)

/-- The JSON body of a POST to the extract route. -/
structure ExtractRequestBody where
  caseId : Option String := none
  directorIndex : Option Int := none
  documentType : Option String := none
  imageBase64 : Option String := none
deriving DecidableEq, Repr

/-- The document type after validation has pinned the string down. -/
def docTypeOfString (s : String) : DocType :=
  if s = "pan" then DocType.pan else DocType.aadhaar

/-- The director index after validation has pinned it to 0 or 1. -/
def finOfIndex (n : Int) : Fin 2 :=
  if n = 0 then 0 else 1

/-- The POST handler of the extract route, with the external inference call
(`callModalExtract` plus the `extracted_data ?? extractedData ?? body`
projection) abstracted as the `callResult` input. -/
def extractPOST (s : Store) (body : ExtractRequestBody)
    (callResult : Except String RawData) : ExtractOutcome × Store :=
  if jsFalsy body.caseId || body.directorIndex == none ||
      jsFalsy body.documentType then
    (.failure 400 "Missing required fields: caseId, directorIndex, documentType", s)
  else
    let caseId := body.caseId.getD ""
    let directorIndex := body.directorIndex.getD 0
    if directorIndex < 0 ∨ directorIndex > 1 then
      (.failure 400 "directorIndex must be 0 or 1", s)
    else if body.documentType != some "pan" &&
        body.documentType != some "aadhaar" then
      (.failure 400 "documentType must be pan or aadhaar", s)
    else
      let documentType := docTypeOfString (body.documentType.getD "")
      let i := finOfIndex directorIndex
      match s caseId with
      | none => (.failure 404 "Case not found", s)
      | some initialCase =>
        match getTargetDocRef initialCase.directors i documentType with
        | none =>
          (.failure 400 ("No " ++ body.documentType.getD "" ++
            " document uploaded for director " ++ toString (directorIndex + 1)), s)
        | some processingTarget =>
          let contentBase64 :=
            nullishOr body.imageBase64 processingTarget.doc.contentBase64
          if jsFalsy contentBase64 then
            (.failure 400 "Document content is missing. Re-upload and retry extraction.", s)
          else
            let content := contentBase64.getD ""
            let s1 :=
              (updateCase s caseId
                { directors := some (processingDirectors initialCase.directors
                    i documentType processingTarget content)
                  inferenceMode := some InferenceMode.modal
                  status := some CaseStatus.extracting }).2
            match callResult with
            | .ok rawData => mergePhase s1 caseId i documentType rawData content
            | .error msg => errorPhase s1 caseId i documentType msg

/-! ## Client-side operations (`components/case-view`) -/

/-- The directors update performed by `handleFileSelect` (attach): replace
the existing slot of the same type in place or append a new one, always in
status `pending`; for `pan`/`aadhaar` clear the extracted data and force
`validated = false`. -/
def attachDirectors (directors : Directors) (i : Fin 2) (t : DocType)
    (docId fileName fileUrl contentBase64 : String) : Directors :=
  let newDoc : DirectorDocument :=
    { id := docId
      type := t
      fileName := fileName
      fileUrl := fileUrl
      contentBase64 := some contentBase64
      status := DocStatus.pending }
  let d := dirGet directors i
  let docs :=
    match findDocIdx d.documents t with
    | some existingIdx => d.documents.set existingIdx newDoc
    | none => d.documents ++ [newDoc]
  let d := { d with documents := docs }
  let d :=
    if t = DocType.pan then { d with panData := none, validated := false }
    else d
  let d :=
    if t = DocType.aadhaar then { d with aadhaarData := none, validated := false }
    else d
  dirSet directors i d

/-- The record persisted by `handleFileSelect`'s
`updateCase({ directors, status: "draft" })`. -/
def attachCase (c : Case) (i : Fin 2) (t : DocType)
    (docId fileName fileUrl contentBase64 : String) : Case :=
  mergeCase c
    { directors := some (attachDirectors c.directors i t docId fileName
        fileUrl contentBase64)
      status := some CaseStatus.draft }

/-- The directors update performed by `handleRemove` (detach): drop every
slot of the type; for `pan`/`aadhaar` clear the extracted data and force
`validated = false`. -/
def removeDirectors (directors : Directors) (i : Fin 2) (t : DocType) :
    Directors :=
  let d := dirGet directors i
  let d := { d with documents := d.documents.filter (fun doc => doc.type != t) }
  let d :=
    if t = DocType.pan then { d with panData := none, validated := false }
    else d
  let d :=
    if t = DocType.aadhaar then { d with aadhaarData := none, validated := false }
    else d
  dirSet directors i d

/-- The record persisted by `handleRemove`'s
`updateCase({ directors, status: "draft" })`. -/
def removeCase (c : Case) (i : Fin 2) (t : DocType) : Case :=
  mergeCase c
    { directors := some (removeDirectors c.directors i t)
      status := some CaseStatus.draft }

/-- `handleApproveDirector`: the guard accepts a director whose pan
(respectively aadhaar) data is present either in the record or as a pending
manual edit; on success the pending edits are committed, the director is
marked validated, and the status becomes `complete` exactly when every
director is validated. `none` models the guard-failure path, which performs
no `updateCase` call. -/
def handleApproveDirector (c : Case) (editedPan : Option PanData)
    (editedAadhaar : Option AadhaarData) (i : Fin 2) : Option Case :=
  let hasPan := (dirGet c.directors i).panData.isSome || editedPan.isSome
  let hasAadhaar :=
    (dirGet c.directors i).aadhaarData.isSome || editedAadhaar.isSome
  if !hasPan || !hasAadhaar then none
  else
    let d := dirGet c.directors i
    let d :=
      match editedPan with
      | some p => { d with panData := some p }
      | none => d
    let d :=
      match editedAadhaar with
      | some a => { d with aadhaarData := some a }
      | none => d
    let d := { d with validated := true }
    let directors := dirSet c.directors i d
    let allValidated := directors.1.validated && directors.2.validated
    some (mergeCase c
      { directors := some directors
        status := some (if allValidated then CaseStatus.complete
          else CaseStatus.reviewing) })

/-! ## Spec-side definitions (for the refinement claims) -/

/-- Modelled from the spec: the four required core slots
{director0-pan, director0-aadhaar, director1-pan, director1-aadhaar}. -/
def requiredSlots (directors : Directors) : List (Option DirectorDocument) :=
  [findDoc directors.1.documents DocType.pan,
   findDoc directors.1.documents DocType.aadhaar,
   findDoc directors.2.documents DocType.pan,
   findDoc directors.2.documents DocType.aadhaar]

/-- Modelled from the spec's words for `deriveStatus`: `reviewing` if all 4
required slots exist and all are `done`, else `extracting` if at least one
required slot exists, else `draft`. -/
def deriveStatusSpec (directors : Directors) : CaseStatus :=
  if (requiredSlots directors).all
      (fun s =>
        match s with
        | some doc => decide (doc.status = DocStatus.done)
        | none => false) then
    CaseStatus.reviewing
  else if (requiredSlots directors).any Option.isSome then
    CaseStatus.extracting
  else CaseStatus.draft

/-! ## Concrete sample data (used by witnesses and counterexamples) -/

/-- `createEmptyDirector` from `lib/types` (the structure defaults above are
exactly its field values). -/
def createEmptyDirector : DirectorInfo := {}

/-- `createEmptyCase` from `lib/types`, with the generated identifier and
creation timestamp taken as inputs. -/
def createEmptyCase (id createdAt name : String) : Case :=
  { id := id
    name := name
    createdAt := createdAt
    status := CaseStatus.draft
    directors := (createEmptyDirector, createEmptyDirector)
    companyInfo :=
      { objectives := "To carry on the business of trading, importing, exporting, manufacturing, distributing and dealing in all types of goods, commodities, products and services." }
    professionalInfo := {}
    inferenceMode := InferenceMode.modal }

/-- A pending uploaded document slot. -/
def sampleSlot (docId : String) (t : DocType) (content : String) :
    DirectorDocument :=
  { id := docId
    type := t
    fileName := "f.jpg"
    fileUrl := "data:image/jpeg;base64,AAAA"
    status := DocStatus.pending
    contentBase64 := some content }

/-- A case with all four required core slots uploaded (pending). -/
def caseWithAllSlots : Case :=
  { createEmptyCase "case-1" "2026-01-01T00:00:00.000Z" "ABC Pvt Ltd" with
    directors :=
      ({ createEmptyDirector with
          documents := [sampleSlot "d0p" DocType.pan "AAA",
            sampleSlot "d0a" DocType.aadhaar "BBB"] },
        { createEmptyDirector with
          documents := [sampleSlot "d1p" DocType.pan "CCC",
            sampleSlot "d1a" DocType.aadhaar "DDD"] }) }

/-- A case whose first director has no documents at all. -/
def caseNoDocs : Case :=
  createEmptyCase "case-1" "2026-01-01T00:00:00.000Z" "ABC Pvt Ltd"

def emptyStore : Store := fun _ => none

def storeAllSlots : Store := storeSet emptyStore "case-1" caseWithAllSlots

def storeNoDocs : Store := storeSet emptyStore "case-1" caseNoDocs

/-- A concrete PAN payload as returned by the inference service. -/
def rawPan : RawData :=
  [("name", "KISHORE SHEIK AHAMED M R"),
   ("fathers_name", "MOHAMMED RAHAMATHULLA"),
   ("date_of_birth", "15/08/1990"),
   ("pan_number", "bqj pk6347q")]

/-- A concrete Aadhaar payload as returned by the inference service. -/
def rawAadhaar : RawData :=
  [("name", "KISHORE SHEIK AHAMED M R"),
   ("aadhaar_number", "876543210987"),
   ("date_of_birth", "15/08/1990"),
   ("gender", "male"),
   ("address", "No 12, 3rd Cross Street, Chennai")]

/-- A concrete manually edited PAN record. -/
def samplePanData : PanData :=
  { name := "A", fathers_name := "B", date_of_birth := "01/01/1990",
    pan_number := "ABCDE1234F" }

/-- A concrete extracted Aadhaar record. -/
def sampleAadhaarData : AadhaarData :=
  { name := "A", aadhaar_number := "1234 5678 9012",
    date_of_birth := "01/01/1990", gender := "MALE", address := "X" }

/-- The directors array of `dirs` contains the `done` outcome of the
extraction on `(i, t)` with payload `raw`: the slot of that type is `done`
and carries the raw payload, and the director's extracted-data field for
that type holds the canonicalized payload. -/
def dirsContainDone (dirs : Directors) (i : Fin 2) (t : DocType)
    (raw : RawData) : Prop :=
  (∃ tref, getTargetDocRef dirs i t = some tref ∧
    tref.doc.status = DocStatus.done ∧ tref.doc.extractedData = some raw) ∧
  (t = DocType.pan → (dirGet dirs i).panData = some (toPanData raw)) ∧
  (t = DocType.aadhaar → (dirGet dirs i).aadhaarData = some (toAadhaarData raw))

/-- The persisted case record contains the `done` result of the extraction
on `(i, t)` with payload `raw`. -/
def containsDoneResult (c : Case) (i : Fin 2) (t : DocType)
    (raw : RawData) : Prop :=
  dirsContainDone c.directors i t raw

/-- A director whose PAN slot is uploaded, whose extracted data exists and
who has been approved. -/
def validatedDirector : DirectorInfo :=
  { createEmptyDirector with
    documents := [sampleSlot "d0p" DocType.pan "AAA"]
    panData := some samplePanData
    aadhaarData := some sampleAadhaarData
    validated := true }

def dirsValidated : Directors := (validatedDirector, createEmptyDirector)

/-- The concrete outcome of the merge-phase write on director 0's PAN slot
of `caseWithAllSlots`. -/
def mdPanSample : Directors :=
  (mergedDoneDirectors caseWithAllSlots.directors 0 DocType.pan rawPan
    "AAA").getD caseWithAllSlots.directors

/-- The concrete outcome of the merge-phase write on director 0's Aadhaar
slot of `caseWithAllSlots`. -/
def mdAadhaarSample : Directors :=
  (mergedDoneDirectors caseWithAllSlots.directors 0 DocType.aadhaar
    rawAadhaar "AAA").getD caseWithAllSlots.directors

/-- A case whose first director has only Aadhaar data (no panData). -/
def onlyAadhaarCase : Case :=
  { caseNoDocs with
    directors :=
      ({ createEmptyDirector with aadhaarData := some sampleAadhaarData },
        createEmptyDirector) }

/-- A case whose first director has both extracted records present. -/
def readyCase : Case :=
  { caseNoDocs with
    directors :=
      ({ createEmptyDirector with
          panData := some samplePanData
          aadhaarData := some sampleAadhaarData },
        createEmptyDirector) }

/-- The concrete record written by approving director 0 of `readyCase`. -/
def approvedSample : Case :=
  (handleApproveDirector readyCase none none 0).getD readyCase

/-- A case whose first director carries a PAN slot with empty stored
content, as left behind by an attach of an empty file. -/
def emptyContentCase : Case :=
  { caseNoDocs with
    directors :=
      ({ createEmptyDirector with
          documents := [sampleSlot "d0p" DocType.pan ""] },
        createEmptyDirector) }

def storeEmptyContent : Store := storeSet emptyStore "case-1" emptyContentCase

/-- A case whose first director's PAN slot has been replaced by a re-upload
(new slot id `d0p-new`) while an extraction started from slot `d0p-old`
was in flight. -/
def replacedCase : Case :=
  { caseNoDocs with
    directors :=
      ({ createEmptyDirector with
          documents := [sampleSlot "d0p-new" DocType.pan "NEW"] },
        createEmptyDirector) }

def storeReplaced : Store := storeSet emptyStore "case-1" replacedCase

/-- A well-formed extract request for director 0's PAN with an override
payload supplied. -/
def bodyWithOverride : ExtractRequestBody :=
  { caseId := some "case-1", directorIndex := some 0,
    documentType := some "pan", imageBase64 := some "xyz" }

/-- A well-formed extract request for director 0's PAN with no override
payload. -/
def bodyNoOverride : ExtractRequestBody :=
  { caseId := some "case-1", directorIndex := some 0,
    documentType := some "pan", imageBase64 := none }

/-! ## Helper lemmas -/

theorem dirGet_dirSet_same (d : Directors) (i : Fin 2) (v : DirectorInfo) :
    dirGet (dirSet d i v) i = v := by
  fin_cases i <;> simp [dirGet, dirSet]

theorem dirGet_dirSet_ne (d : Directors) (i j : Fin 2) (v : DirectorInfo)
    (h : i ≠ j) : dirGet (dirSet d i v) j = dirGet d j := by
  fin_cases i <;> fin_cases j <;> simp_all [dirGet, dirSet]

theorem get?_set_self {α : Type _} (l : List α) (j : Nat) (a : α)
    (h : j < l.length) : (l.set j a).get? j = some a := by
  induction l generalizing j with
  | nil => simp at h
  | cons x xs ih =>
    cases j with
    | zero => simp
    | succ k => simpa using ih k (by simpa using h)

theorem get?_set_ne {α : Type _} (l : List α) (j k : Nat) (a : α)
    (h : j ≠ k) : (l.set j a).get? k = l.get? k := by
  induction l generalizing j k with
  | nil => simp
  | cons x xs ih =>
    cases j with
    | zero =>
      cases k with
      | zero => exact absurd rfl h
      | succ m => simp
    | succ j' =>
      cases k with
      | zero => simp
      | succ m => simpa using ih j' m (by omega)

theorem findDocIdx_get (docs : List DirectorDocument) (t : DocType) (j : Nat)
    (h : findDocIdx docs t = some j) :
    ∃ doc, docs.get? j = some doc ∧ doc.type = t := by
  induction docs generalizing j with
  | nil => simp [findDocIdx] at h
  | cons a rest ih =>
    by_cases ha : a.type = t
    · simp [findDocIdx, ha] at h
      exact ⟨a, by simp [← h], ha⟩
    · simp [findDocIdx, ha] at h
      obtain ⟨k, hk, rfl⟩ := h
      obtain ⟨doc, hd, ht⟩ := ih k hk
      exact ⟨doc, by simpa using hd, ht⟩

theorem findDocIdx_lt (docs : List DirectorDocument) (t : DocType) (j : Nat)
    (h : findDocIdx docs t = some j) : j < docs.length := by
  obtain ⟨doc, hd, -⟩ := findDocIdx_get docs t j h
  by_contra hlt
  rw [List.get?_eq_none.mpr (by omega)] at hd
  exact Option.noConfusion hd

theorem findDocIdx_set_type_eq (docs : List DirectorDocument) (t : DocType)
    (j : Nat) (d' old : DirectorDocument) (hget : docs.get? j = some old)
    (htype : d'.type = old.type) :
    findDocIdx (docs.set j d') t = findDocIdx docs t := by
  induction docs generalizing j with
  | nil => simp at hget
  | cons a rest ih =>
    cases j with
    | zero =>
      simp at hget
      subst hget
      simp [findDocIdx, htype]
    | succ k =>
      rw [List.get?_cons_succ] at hget
      rw [List.set_cons_succ]
      simp only [findDocIdx]
      rw [ih k hget]

theorem findDoc_eq_bind (docs : List DirectorDocument) (t : DocType) :
    findDoc docs t = (findDocIdx docs t).bind docs.get? := by
  induction docs with
  | nil => simp [findDoc, findDocIdx]
  | cons a rest ih =>
    by_cases ha : a.type = t
    · simp [findDoc, findDocIdx, ha]
    · simp only [findDoc, findDocIdx, ha, if_neg, ite_false, ih]
      cases h : findDocIdx rest t <;> simp

theorem getTargetDocRef_inv (directors : Directors) (i : Fin 2) (t : DocType)
    (tref : TargetDocRef) (h : getTargetDocRef directors i t = some tref) :
    findDocIdx (dirGet directors i).documents t = some tref.docIndex ∧
      (dirGet directors i).documents.get? tref.docIndex = some tref.doc ∧
      tref.doc.type = t := by
  unfold getTargetDocRef at h
  cases hidx : findDocIdx (dirGet directors i).documents t with
  | none => rw [hidx] at h; simp at h
  | some j =>
    rw [hidx] at h
    dsimp only at h
    cases hget : (dirGet directors i).documents.get? j with
    | none => rw [hget] at h; simp at h
    | some doc =>
      rw [hget] at h
      simp only [Option.map_some', Option.some.injEq] at h
      obtain ⟨doc2, hd2, ht2⟩ := findDocIdx_get _ _ _ hidx
      rw [hget] at hd2
      cases hd2
      subst h
      exact ⟨rfl, hget, ht2⟩

theorem getTargetDocRef_eq_some (directors : Directors) (i : Fin 2)
    (t : DocType) (j : Nat) (doc : DirectorDocument)
    (hidx : findDocIdx (dirGet directors i).documents t = some j)
    (hget : (dirGet directors i).documents.get? j = some doc) :
    getTargetDocRef directors i t = some ⟨doc, j⟩ := by
  unfold getTargetDocRef
  rw [hidx]
  dsimp only
  rw [hget]
  rfl

theorem getTargetDocRef_none_iff (directors : Directors) (i : Fin 2)
    (t : DocType) :
    getTargetDocRef directors i t = none ↔
      findDocIdx (dirGet directors i).documents t = none := by
  unfold getTargetDocRef
  cases hidx : findDocIdx (dirGet directors i).documents t with
  | none => simp
  | some j =>
    obtain ⟨doc, hd, -⟩ := findDocIdx_get _ _ _ hidx
    simp [hd]
    exact findDocIdx_lt _ _ _ hidx

theorem storeSet_same (s : Store) (k : String) (v : Case) :
    storeSet s k v k = some v := by
  simp [storeSet]

theorem storeSet_ne (s : Store) (k : String) (v : Case) (k' : String)
    (h : k' ≠ k) : storeSet s k v k' = s k' := by
  simp [storeSet, h]

/-! ## C4: status derivation -/

set_option maxHeartbeats 2000000 in
/-- C4: the case-level status persisted after a terminal extraction write is
`deriveStatus`, a pure function of the four required slots: `reviewing` if
all four slots exist and all have status `done`, else `extracting` if at
least one required slot exists, else `draft`; being a function, recomputing
it on the same input yields the same status. -/
theorem C4_status_derivation (dirs : Directors) :
    deriveStatus dirs = deriveStatusSpec dirs := by
  unfold deriveStatus deriveStatusSpec getCoreDocProgress requiredSlots coreDocStep
  rcases h1 : findDoc dirs.1.documents DocType.pan with _ | d1 <;>
    rcases h2 : findDoc dirs.1.documents DocType.aadhaar with _ | d2 <;>
      rcases h3 : findDoc dirs.2.documents DocType.pan with _ | d3 <;>
        rcases h4 : findDoc dirs.2.documents DocType.aadhaar with _ | d4 <;>
          simp only [h1, h2, h3, h4] <;>
            split_ifs <;> simp_all

/-! ## C3: canonicalization -/

/-- C3 counterexample: when fewer than 12 digits are recovered, the raw
Aadhaar value is NOT passed through unmodified — the code stores it
trimmed: input `" 1234"` is stored as `"1234"`. -/
theorem C3_counterexample :
    (toAadhaarData [("aadhaar_number", " 1234")]).aadhaar_number = "1234" ∧
      (" 1234" : String) ≠ "1234" := by
  exact ⟨by decide, by decide⟩

/-- C3 (amended): the stored PAN number is the raw `pan_number` with all
whitespace stripped and upper-cased (`"bqj pk6347q"` is stored as
`"BQJPK6347Q"`); the stored Aadhaar number is the raw digits regrouped as
`XXXX XXXX XXXX` when exactly 12 digits are present (`"876543210987"` is
stored as `"8765 4321 0987"`), and otherwise is the raw value passed
through trimmed (not unmodified); the free-text fields are trimmed. -/
theorem C3_canonicalization :
    (∀ data s, rawLookup data "pan_number" = some s →
      (toPanData data).pan_number = jsToUpperCase (stripWhitespace s)) ∧
    (toPanData rawPan).pan_number = "BQJPK6347Q" ∧
    (∀ data s, rawLookup data "aadhaar_number" = some s →
      (digitsOnly s).length = 12 →
      (toAadhaarData data).aadhaar_number =
        (⟨(digitsOnly s).data.take 4⟩ : String) ++ " " ++
          (⟨((digitsOnly s).data.drop 4).take 4⟩ : String) ++ " " ++
          (⟨(digitsOnly s).data.drop 8⟩ : String)) ∧
    (toAadhaarData rawAadhaar).aadhaar_number = "8765 4321 0987" ∧
    (∀ data s, rawLookup data "aadhaar_number" = some s →
      (digitsOnly s).length ≠ 12 →
      (toAadhaarData data).aadhaar_number = jsTrim s) ∧
    (∀ data s, rawLookup data "name" = some s →
      (toPanData data).name = jsTrim s ∧ (toAadhaarData data).name = jsTrim s) ∧
    (∀ data s, rawLookup data "fathers_name" = some s →
      (toPanData data).fathers_name = jsTrim s) ∧
    (∀ data s, rawLookup data "date_of_birth" = some s →
      (toPanData data).date_of_birth = jsTrim s ∧
        (toAadhaarData data).date_of_birth = jsTrim s) ∧
    (∀ data s, rawLookup data "address" = some s →
      (toAadhaarData data).address = jsTrim s) := by
  refine ⟨?_, by decide, ?_, by decide, ?_, ?_, ?_, ?_, ?_⟩
  · intro data s h
    simp [toPanData, h]
  · intro data s h h12
    simp [toAadhaarData, h, h12]
  · intro data s h h12
    simp [toAadhaarData, h, h12]
  · intro data s h
    exact ⟨by simp [toPanData, h], by simp [toAadhaarData, h]⟩
  · intro data s h
    simp [toPanData, h]
  · intro data s h
    exact ⟨by simp [toPanData, h], by simp [toAadhaarData, h]⟩
  · intro data s h
    simp [toAadhaarData, h]

/-- C3 witness: the general PAN clause of `C3_canonicalization` applied at
the concrete payload. -/
theorem C3_canonicalization_witness :
    rawLookup rawPan "pan_number" = some "bqj pk6347q" ∧
      (toPanData rawPan).pan_number =
        jsToUpperCase (stripWhitespace "bqj pk6347q") :=
  ⟨by decide, C3_canonicalization.1 rawPan "bqj pk6347q" (by decide)⟩

/-! ## C10: shallow-merge semantics of the store update -/

/-- C10: `updateCase` stores exactly the shallow merge — every top-level
field named in the partial replaces the stored field wholesale, every
absent field is unchanged, the map key is never changed (the record stays
under the same key and no other key is touched), and `id`/`createdAt`
fields in the partial are applied verbatim, so the stored record's `id`
can come to differ from its key. -/
theorem C10_shallow_merge (s : Store) (id : String) (u : PartialCase)
    (c : Case) (hc : s id = some c) :
    (updateCase s id u).1 = some (mergeCase c u) ∧
    (updateCase s id u).2 id = some (mergeCase c u) ∧
    (∀ k, k ≠ id → (updateCase s id u).2 k = s k) ∧
    (mergeCase c u).id = u.id.getD c.id ∧
    (mergeCase c u).name = u.name.getD c.name ∧
    (mergeCase c u).createdAt = u.createdAt.getD c.createdAt ∧
    (mergeCase c u).status = u.status.getD c.status ∧
    (mergeCase c u).directors = u.directors.getD c.directors ∧
    (mergeCase c u).companyInfo = u.companyInfo.getD c.companyInfo ∧
    (mergeCase c u).professionalInfo =
      u.professionalInfo.getD c.professionalInfo ∧
    (mergeCase c u).inferenceMode = u.inferenceMode.getD c.inferenceMode := by
  refine ⟨?_, ?_, ?_, rfl, rfl, rfl, rfl, rfl, rfl, rfl, rfl⟩
  · simp [updateCase, hc]
  · simp [updateCase, hc, storeSet]
  · intro k hk
    simp [updateCase, hc, storeSet, hk]

/-- C10 witness: a PATCH body carrying an `id` field is applied verbatim,
so the stored record's id differs from the key it is stored under. -/
theorem C10_shallow_merge_witness :
    storeNoDocs "case-1" = some caseNoDocs ∧
    (updateCase storeNoDocs "case-1" { id := some "other-id" }).2 "case-1" =
      some (mergeCase caseNoDocs { id := some "other-id" }) ∧
    (mergeCase caseNoDocs { id := some "other-id" }).id =
      (some "other-id").getD caseNoDocs.id ∧
    (mergeCase caseNoDocs { id := some "other-id" }).id ≠ "case-1" :=
  ⟨by decide,
   (C10_shallow_merge storeNoDocs "case-1" { id := some "other-id" }
      caseNoDocs (by decide)).2.1,
   (C10_shallow_merge storeNoDocs "case-1" { id := some "other-id" }
      caseNoDocs (by decide)).2.2.2.1,
   by decide⟩

/-! ## Lemmas about single-slot updates -/

theorem getTargetDocRef_after_update (dirs : Directors) (i : Fin 2)
    (t : DocType) (tref : TargetDocRef)
    (h : getTargetDocRef dirs i t = some tref)
    (d' : DirectorInfo) (newDoc : DirectorDocument)
    (hdocs : d'.documents = (dirGet dirs i).documents.set tref.docIndex newDoc)
    (htype : newDoc.type = t) :
    getTargetDocRef (dirSet dirs i d') i t = some ⟨newDoc, tref.docIndex⟩ := by
  obtain ⟨hidx, hget, htyp⟩ := getTargetDocRef_inv _ _ _ _ h
  have hfind : findDocIdx (dirGet (dirSet dirs i d') i).documents t =
      some tref.docIndex := by
    rw [dirGet_dirSet_same, hdocs,
      findDocIdx_set_type_eq _ _ _ _ _ hget (by rw [htype, htyp])]
    exact hidx
  apply getTargetDocRef_eq_some _ _ _ _ _ hfind
  rw [dirGet_dirSet_same, hdocs]
  exact get?_set_self _ _ _ (findDocIdx_lt _ _ _ hidx)

theorem getTargetDocRef_after_update_ne (dirs : Directors) (i : Fin 2)
    (t : DocType) (tref : TargetDocRef)
    (h : getTargetDocRef dirs i t = some tref)
    (d' : DirectorInfo) (newDoc : DirectorDocument)
    (hdocs : d'.documents = (dirGet dirs i).documents.set tref.docIndex newDoc)
    (htype : newDoc.type = t)
    (i' : Fin 2) (t' : DocType) (hne : i ≠ i' ∨ t ≠ t') :
    getTargetDocRef (dirSet dirs i d') i' t' = getTargetDocRef dirs i' t' := by
  obtain ⟨hidx, hget, htyp⟩ := getTargetDocRef_inv _ _ _ _ h
  by_cases hi : i = i'
  · subst hi
    have ht' : t ≠ t' := by
      rcases hne with h' | h'
      · exact absurd rfl h'
      · exact h'
    unfold getTargetDocRef
    rw [dirGet_dirSet_same, hdocs,
      findDocIdx_set_type_eq _ _ _ _ _ hget (by rw [htype, htyp])]
    cases hidx' : findDocIdx (dirGet dirs i).documents t' with
    | none => rfl
    | some j' =>
      obtain ⟨doc', hget', htyp'⟩ := findDocIdx_get _ _ _ hidx'
      have hjj : tref.docIndex ≠ j' := by
        intro hjeq
        rw [← hjeq, hget] at hget'
        cases hget'
        exact ht' (htyp ▸ htyp')
      dsimp only
      rw [get?_set_ne _ _ _ _ hjj]
  · unfold getTargetDocRef
    rw [dirGet_dirSet_ne _ _ _ _ hi]

/-! ## C2: invalidation on clear/replace -/

/-- C2 counterexample: the terminal merge write of a (re-run) extraction
replaces director 0's `panData` (which was `some samplePanData`, with
`validated = true`) but does NOT leave the extracted-data field cleared —
the resulting record holds the freshly extracted data, refuting the
claim's "corresponding extracted-data field cleared" for this operation.
The `validated` flag does become false. -/
theorem C2_counterexample :
    (dirGet dirsValidated 0).panData = some samplePanData ∧
    (dirGet dirsValidated 0).validated = true ∧
    ((mergedDoneDirectors dirsValidated 0 DocType.pan rawPan "AAA").map
      (fun md => (dirGet md 0).panData)) = some (some (toPanData rawPan)) ∧
    some (toPanData rawPan) ≠ (none : Option PanData) ∧
    ((mergedDoneDirectors dirsValidated 0 DocType.pan rawPan "AAA").map
      (fun md => (dirGet md 0).validated)) = some false := by
  refine ⟨by decide, by decide, by decide, by decide, by decide⟩

/-- C2 (amended): every operation that clears or replaces a director's
`panData`/`aadhaarData` — attach, detach, the extraction's mark-processing
write and its terminal merge write — leaves that director's `validated`
flag false regardless of its prior value; attach, detach and the
mark-processing write additionally clear the corresponding extracted-data
field, while the terminal merge write instead replaces it with the newly
extracted data. -/
theorem C2_invalidation (directors : Directors) (i : Fin 2)
    (docId fileName fileUrl content : String) (rawP rawA : RawData)
    (trefP trefA : TargetDocRef) (mdP mdA : Directors)
    (hmdP : mergedDoneDirectors directors i DocType.pan rawP content = some mdP)
    (hmdA : mergedDoneDirectors directors i DocType.aadhaar rawA content = some mdA) :
    ((dirGet (attachDirectors directors i DocType.pan docId fileName fileUrl
        content) i).validated = false ∧
      (dirGet (attachDirectors directors i DocType.pan docId fileName fileUrl
        content) i).panData = none) ∧
    ((dirGet (attachDirectors directors i DocType.aadhaar docId fileName
        fileUrl content) i).validated = false ∧
      (dirGet (attachDirectors directors i DocType.aadhaar docId fileName
        fileUrl content) i).aadhaarData = none) ∧
    ((dirGet (removeDirectors directors i DocType.pan) i).validated = false ∧
      (dirGet (removeDirectors directors i DocType.pan) i).panData = none) ∧
    ((dirGet (removeDirectors directors i DocType.aadhaar) i).validated = false ∧
      (dirGet (removeDirectors directors i DocType.aadhaar) i).aadhaarData = none) ∧
    ((dirGet (processingDirectors directors i DocType.pan trefP content) i).validated = false ∧
      (dirGet (processingDirectors directors i DocType.pan trefP content) i).panData = none) ∧
    ((dirGet (processingDirectors directors i DocType.aadhaar trefA content) i).validated = false ∧
      (dirGet (processingDirectors directors i DocType.aadhaar trefA content) i).aadhaarData = none) ∧
    ((dirGet mdP i).validated = false ∧
      (dirGet mdP i).panData = some (toPanData rawP)) ∧
    ((dirGet mdA i).validated = false ∧
      (dirGet mdA i).aadhaarData = some (toAadhaarData rawA)) := by
  refine ⟨?_, ?_, ?_, ?_, ?_, ?_, ?_, ?_⟩
  · constructor <;> simp [attachDirectors, dirGet_dirSet_same]
  · constructor <;> simp [attachDirectors, dirGet_dirSet_same]
  · constructor <;> simp [removeDirectors, dirGet_dirSet_same]
  · constructor <;> simp [removeDirectors, dirGet_dirSet_same]
  · constructor <;> simp [processingDirectors, dirGet_dirSet_same]
  · constructor <;> simp [processingDirectors, dirGet_dirSet_same]
  · unfold mergedDoneDirectors at hmdP
    cases htref : getTargetDocRef directors i DocType.pan with
    | none => rw [htref] at hmdP; exact absurd hmdP (by simp)
    | some tref =>
      rw [htref] at hmdP
      simp only [Option.some.injEq] at hmdP
      subst hmdP
      constructor <;> simp [dirGet_dirSet_same]
  · unfold mergedDoneDirectors at hmdA
    cases htref : getTargetDocRef directors i DocType.aadhaar with
    | none => rw [htref] at hmdA; exact absurd hmdA (by simp)
    | some tref =>
      rw [htref] at hmdA
      simp only [Option.some.injEq] at hmdA
      subst hmdA
      constructor <;> simp [dirGet_dirSet_same]

/-- C2 witness: `C2_invalidation` applied to `caseWithAllSlots` with both
merge-write hypotheses discharged concretely. -/
theorem C2_invalidation_witness :
    mergedDoneDirectors caseWithAllSlots.directors 0 DocType.pan rawPan
      "AAA" = some mdPanSample ∧
    mergedDoneDirectors caseWithAllSlots.directors 0 DocType.aadhaar
      rawAadhaar "AAA" = some mdAadhaarSample ∧
    ((dirGet mdPanSample 0).validated = false ∧
      (dirGet mdPanSample 0).panData = some (toPanData rawPan)) :=
  ⟨by decide, by decide,
   (C2_invalidation caseWithAllSlots.directors 0 "doc-1" "f.jpg" "u" "AAA"
      rawPan rawAadhaar ⟨sampleSlot "d0p" DocType.pan "AAA", 0⟩
      ⟨sampleSlot "d0a" DocType.aadhaar "BBB", 1⟩ mdPanSample
      mdAadhaarSample (by decide) (by decide)).2.2.2.2.2.2.1⟩

/-! ## C5: approval guard -/

/-- C5 counterexample: approving director 0 of a case whose record has NO
`panData` (only `aadhaarData`) succeeds without a guard failure when a
pending manual PAN edit exists — the guard accepts `panData || editedPan`,
so a missing record field does not force a guard failure as claimed, and
the record is mutated (`validated` becomes true, the edit is committed). -/
theorem C5_counterexample :
    (dirGet onlyAadhaarCase.directors 0).panData = none ∧
    (handleApproveDirector onlyAadhaarCase (some samplePanData) none 0).isSome
      = true ∧
    ((handleApproveDirector onlyAadhaarCase (some samplePanData) none 0).map
      (fun c => (dirGet c.directors 0).validated)) = some true ∧
    ((handleApproveDirector onlyAadhaarCase (some samplePanData) none 0).map
      (fun c => (dirGet c.directors 0).panData)) =
      some (some samplePanData) := by
  refine ⟨by decide, by decide, by decide, by decide⟩

/-- C5 (amended): the approval operation sets a director's `validated` flag
to true only if, for each of PAN and Aadhaar, the extracted data is present
either in the record or as a pending manual edit (which is committed by the
approval, so both fields are present in the resulting record); if either is
missing from both sources, it signals a guard failure and performs no
mutation of the case record (modeled by `none`: no store write happens on
that path); when the approval makes both directors validated the status
becomes `complete`, and otherwise it becomes `reviewing`. -/
theorem C5_approval_guard (c : Case) (editedPan : Option PanData)
    (editedAadhaar : Option AadhaarData) (i : Fin 2) :
    (handleApproveDirector c editedPan editedAadhaar i = none ↔
      ¬(((dirGet c.directors i).panData.isSome = true ∨
          editedPan.isSome = true) ∧
        ((dirGet c.directors i).aadhaarData.isSome = true ∨
          editedAadhaar.isSome = true))) ∧
    (∀ c', handleApproveDirector c editedPan editedAadhaar i = some c' →
      (dirGet c'.directors i).validated = true ∧
      (dirGet c'.directors i).panData.isSome = true ∧
      (dirGet c'.directors i).aadhaarData.isSome = true ∧
      (c'.status = CaseStatus.complete ↔
        (c'.directors.1.validated = true ∧ c'.directors.2.validated = true)) ∧
      (c'.status = CaseStatus.complete ∨ c'.status = CaseStatus.reviewing)) := by
  have main : ∀ D : DirectorInfo, D.validated = true →
      D.panData.isSome = true → D.aadhaarData.isSome = true →
      ∀ c'' : Case,
        mergeCase c
          { directors := some (dirSet c.directors i D)
            status := some (if (dirSet c.directors i D).1.validated &&
                (dirSet c.directors i D).2.validated then CaseStatus.complete
              else CaseStatus.reviewing) } = c'' →
        (dirGet c''.directors i).validated = true ∧
        (dirGet c''.directors i).panData.isSome = true ∧
        (dirGet c''.directors i).aadhaarData.isSome = true ∧
        (c''.status = CaseStatus.complete ↔
          (c''.directors.1.validated = true ∧
            c''.directors.2.validated = true)) ∧
        (c''.status = CaseStatus.complete ∨
          c''.status = CaseStatus.reviewing) := by
    intro D hv hpan haad c'' hc''
    subst hc''
    refine ⟨?_, ?_, ?_, ?_, ?_⟩
    · simpa [mergeCase, dirGet_dirSet_same] using hv
    · simpa [mergeCase, dirGet_dirSet_same] using hpan
    · simpa [mergeCase, dirGet_dirSet_same] using haad
    · by_cases hA : ((dirSet c.directors i D).1.validated &&
          (dirSet c.directors i D).2.validated) = true
      · have hA' : (dirSet c.directors i D).1.validated = true ∧
            (dirSet c.directors i D).2.validated = true := by simpa using hA
        simp [mergeCase, hA, hA'.1, hA'.2]
      · simp only [mergeCase, Option.getD_some, if_neg hA]
        constructor
        · intro habs; exact CaseStatus.noConfusion habs
        · intro h
          exact absurd (show ((dirSet c.directors i D).1.validated &&
              (dirSet c.directors i D).2.validated) = true by
            rw [h.1, h.2]; rfl) hA
    · by_cases hA : ((dirSet c.directors i D).1.validated &&
          (dirSet c.directors i D).2.validated) = true
      · left; simp [mergeCase, hA]
      · right; simp [mergeCase, hA]
  constructor
  · unfold handleApproveDirector
    by_cases hp : (dirGet c.directors i).panData.isSome = true <;>
      by_cases hep : editedPan.isSome = true <;>
        by_cases ha : (dirGet c.directors i).aadhaarData.isSome = true <;>
          by_cases hea : editedAadhaar.isSome = true <;>
            simp [hp, hep, ha, hea]
  · intro c' hc'
    unfold handleApproveDirector at hc'
    by_cases hguard : ((!((dirGet c.directors i).panData.isSome ||
        editedPan.isSome)) ||
        (!((dirGet c.directors i).aadhaarData.isSome ||
          editedAadhaar.isSome))) = true
    · rw [if_pos hguard] at hc'
      exact absurd hc' (by simp)
    · rw [if_neg hguard] at hc'
      have hhasP : ((dirGet c.directors i).panData.isSome ||
          editedPan.isSome) = true := by
        cases hx : ((dirGet c.directors i).panData.isSome ||
            editedPan.isSome) with
        | true => rfl
        | false => exact absurd (by rw [hx]; simp) hguard
      have hhasA : ((dirGet c.directors i).aadhaarData.isSome ||
          editedAadhaar.isSome) = true := by
        cases hx : ((dirGet c.directors i).aadhaarData.isSome ||
            editedAadhaar.isSome) with
        | true => rfl
        | false => exact absurd (by rw [hx]; simp) hguard
      simp only [Option.some.injEq] at hc'
      cases hedp : editedPan with
      | some p =>
        cases heda : editedAadhaar with
        | some a =>
          rw [hedp, heda] at hc'
          exact main _ (by simp) (by simp) (by simp) c' hc'
        | none =>
          rw [hedp, heda] at hc'
          rw [heda] at hhasA
          simp only [Option.isSome_none, Bool.or_false] at hhasA
          exact main _ (by simp) (by simp) (by simpa using hhasA) c' hc'
      | none =>
        rw [hedp] at hhasP
        simp only [Option.isSome_none, Bool.or_false] at hhasP
        cases heda : editedAadhaar with
        | some a =>
          rw [hedp, heda] at hc'
          exact main _ (by simp) (by simpa using hhasP) (by simp) c' hc'
        | none =>
          rw [hedp, heda] at hc'
          rw [heda] at hhasA
          simp only [Option.isSome_none, Bool.or_false] at hhasA
          exact main _ (by simp) (by simpa using hhasP)
            (by simpa using hhasA) c' hc'

/-- C5 witness: `C5_approval_guard` applied to `readyCase` (both records
present, no pending edits), whose approval succeeds and yields status
`reviewing` as the other director is not validated. -/
theorem C5_approval_guard_witness :
    handleApproveDirector readyCase none none 0 = some approvedSample ∧
    ((dirGet approvedSample.directors 0).validated = true ∧
      (dirGet approvedSample.directors 0).panData.isSome = true ∧
      (dirGet approvedSample.directors 0).aadhaarData.isSome = true ∧
      (approvedSample.status = CaseStatus.complete ↔
        (approvedSample.directors.1.validated = true ∧
          approvedSample.directors.2.validated = true)) ∧
      (approvedSample.status = CaseStatus.complete ∨
        approvedSample.status = CaseStatus.reviewing)) :=
  ⟨by decide,
   (C5_approval_guard readyCase none none 0).2 approvedSample (by decide)⟩

/-! ## Lemmas driving the extract route through its validation prefix -/

theorem extractPOST_no_slot (s : Store) (body : ExtractRequestBody)
    (call : Except String RawData) (caseId : String) (n : Int) (dt : String)
    (c : Case)
    (h1 : body.caseId = some caseId) (h2 : caseId ≠ "")
    (h3 : body.directorIndex = some n) (h4 : n = 0 ∨ n = 1)
    (h5 : body.documentType = some dt) (h6 : dt = "pan" ∨ dt = "aadhaar")
    (h7 : s caseId = some c)
    (h8 : getTargetDocRef c.directors (finOfIndex n) (docTypeOfString dt)
      = none) :
    extractPOST s body call =
      (.failure 400 ("No " ++ dt ++ " document uploaded for director " ++
        toString (n + 1)), s) := by
  unfold extractPOST
  rw [h1, h3, h5]
  have hf1 : jsFalsy (some caseId) = false := by
    simp [jsFalsy]
    exact h2
  have hf2 : jsFalsy (some dt) = false := by
    simp [jsFalsy]
    rcases h6 with rfl | rfl <;> simp
  have hcond : (jsFalsy (some caseId) || ((some n == none) : Bool) ||
      jsFalsy (some dt)) = false := by
    rw [hf1, hf2]
    rfl
  rw [if_neg (by rw [hcond]; exact Bool.false_ne_true)]
  simp only [Option.getD_some]
  rw [if_neg (by rcases h4 with rfl | rfl <;> omega)]
  have hdt : ((some dt != some "pan") && (some dt != some "aadhaar"))
      = false := by
    rcases h6 with rfl | rfl <;> rfl
  rw [if_neg (by rw [hdt]; exact Bool.false_ne_true)]
  rw [h7]
  dsimp only
  rw [h8]

theorem extractPOST_missing_content (s : Store) (body : ExtractRequestBody)
    (call : Except String RawData) (caseId : String) (n : Int) (dt : String)
    (c : Case) (tref : TargetDocRef)
    (h1 : body.caseId = some caseId) (h2 : caseId ≠ "")
    (h3 : body.directorIndex = some n) (h4 : n = 0 ∨ n = 1)
    (h5 : body.documentType = some dt) (h6 : dt = "pan" ∨ dt = "aadhaar")
    (h7 : s caseId = some c)
    (h8 : getTargetDocRef c.directors (finOfIndex n) (docTypeOfString dt)
      = some tref)
    (h9 : jsFalsy (nullishOr body.imageBase64 tref.doc.contentBase64)
      = true) :
    extractPOST s body call =
      (.failure 400 "Document content is missing. Re-upload and retry extraction.", s) := by
  unfold extractPOST
  rw [h1, h3, h5]
  have hf1 : jsFalsy (some caseId) = false := by
    simp [jsFalsy]
    exact h2
  have hf2 : jsFalsy (some dt) = false := by
    simp [jsFalsy]
    rcases h6 with rfl | rfl <;> simp
  have hcond : (jsFalsy (some caseId) || ((some n == none) : Bool) ||
      jsFalsy (some dt)) = false := by
    rw [hf1, hf2]
    rfl
  rw [if_neg (by rw [hcond]; exact Bool.false_ne_true)]
  simp only [Option.getD_some]
  rw [if_neg (by rcases h4 with rfl | rfl <;> omega)]
  have hdt : ((some dt != some "pan") && (some dt != some "aadhaar"))
      = false := by
    rcases h6 with rfl | rfl <;> rfl
  rw [if_neg (by rw [hdt]; exact Bool.false_ne_true)]
  rw [h7]
  dsimp only
  rw [h8]
  dsimp only
  rw [if_pos h9]

theorem extractPOST_proceeds (s : Store) (body : ExtractRequestBody)
    (call : Except String RawData) (caseId : String) (n : Int) (dt : String)
    (c : Case) (tref : TargetDocRef)
    (h1 : body.caseId = some caseId) (h2 : caseId ≠ "")
    (h3 : body.directorIndex = some n) (h4 : n = 0 ∨ n = 1)
    (h5 : body.documentType = some dt) (h6 : dt = "pan" ∨ dt = "aadhaar")
    (h7 : s caseId = some c)
    (h8 : getTargetDocRef c.directors (finOfIndex n) (docTypeOfString dt)
      = some tref)
    (h9 : jsFalsy (nullishOr body.imageBase64 tref.doc.contentBase64)
      = false) :
    extractPOST s body call =
      (fun content s1 =>
        match call with
        | .ok rawData =>
          mergePhase s1 caseId (finOfIndex n) (docTypeOfString dt) rawData
            content
        | .error msg =>
          errorPhase s1 caseId (finOfIndex n) (docTypeOfString dt) msg)
      ((nullishOr body.imageBase64 tref.doc.contentBase64).getD "")
      ((updateCase s caseId
        { directors := some (processingDirectors c.directors (finOfIndex n)
            (docTypeOfString dt) tref
            ((nullishOr body.imageBase64 tref.doc.contentBase64).getD ""))
          inferenceMode := some InferenceMode.modal
          status := some CaseStatus.extracting }).2) := by
  unfold extractPOST
  rw [h1, h3, h5]
  have hf1 : jsFalsy (some caseId) = false := by
    simp [jsFalsy]
    exact h2
  have hf2 : jsFalsy (some dt) = false := by
    simp [jsFalsy]
    rcases h6 with rfl | rfl <;> simp
  have hcond : (jsFalsy (some caseId) || ((some n == none) : Bool) ||
      jsFalsy (some dt)) = false := by
    rw [hf1, hf2]
    rfl
  rw [if_neg (by rw [hcond]; exact Bool.false_ne_true)]
  simp only [Option.getD_some]
  rw [if_neg (by rcases h4 with rfl | rfl <;> omega)]
  have hdt : ((some dt != some "pan") && (some dt != some "aadhaar"))
      = false := by
    rcases h6 with rfl | rfl <;> rfl
  rw [if_neg (by rw [hdt]; exact Bool.false_ne_true)]
  rw [h7]
  dsimp only
  rw [h8]
  dsimp only
  rw [if_neg (by rw [h9]; exact Bool.false_ne_true)]

theorem mergePhase_not_400 (s : Store) (caseId : String) (i : Fin 2)
    (t : DocType) (raw : RawData) (b : String) (m : String) :
    (mergePhase s caseId i t raw b).1 ≠ ExtractOutcome.failure 400 m := by
  unfold mergePhase
  cases s caseId with
  | none => simp
  | some latestCase =>
    rcases h : mergedDoneDirectors latestCase.directors i t raw b with _ | md <;>
      simp [h]

theorem errorPhase_not_400 (s : Store) (caseId : String) (i : Fin 2)
    (t : DocType) (msg m : String) :
    (errorPhase s caseId i t msg).1 ≠ ExtractOutcome.failure 400 m := by
  unfold errorPhase
  cases s caseId with
  | none => simp
  | some latestCase =>
    rcases h : errorDirectors latestCase.directors i t with _ | md <;>
      simp [h]

/-! ## C9: empty-content attach -/

/-- C9 counterexample: attaching a document whose content payload is empty
is NOT rejected before mutation — the attach persists a new pending slot
(the record changes), with the empty payload stored. -/
theorem C9_counterexample :
    (dirGet caseNoDocs.directors 0).documents = [] ∧
    (dirGet (attachCase caseNoDocs 0 DocType.pan "doc-1" "f.jpg"
      "data:application/octet-stream;base64," "").directors 0).documents ≠ [] ∧
    attachCase caseNoDocs 0 DocType.pan "doc-1" "f.jpg"
      "data:application/octet-stream;base64," "" ≠ caseNoDocs := by
  refine ⟨by decide, by decide, by decide⟩

/-- C9 (amended): the attach itself is not rejected on empty content (see
the counterexample); what holds is that the extraction step is rejected
with an input-validation failure (400, "Document content is missing")
whenever the effective content payload — the request override `??` the
stored slot content — is empty or absent, before the extract route
performs any mutation: the store is returned exactly unchanged. -/
theorem C9_empty_content_rejection (s : Store) (body : ExtractRequestBody)
    (call : Except String RawData) (caseId : String) (n : Int) (dt : String)
    (c : Case) (tref : TargetDocRef)
    (h1 : body.caseId = some caseId) (h2 : caseId ≠ "")
    (h3 : body.directorIndex = some n) (h4 : n = 0 ∨ n = 1)
    (h5 : body.documentType = some dt) (h6 : dt = "pan" ∨ dt = "aadhaar")
    (h7 : s caseId = some c)
    (h8 : getTargetDocRef c.directors (finOfIndex n) (docTypeOfString dt)
      = some tref)
    (h9 : jsFalsy (nullishOr body.imageBase64 tref.doc.contentBase64)
      = true) :
    extractPOST s body call =
      (.failure 400 "Document content is missing. Re-upload and retry extraction.", s) :=
  extractPOST_missing_content s body call caseId n dt c tref h1 h2 h3 h4 h5
    h6 h7 h8 h9

/-- C9 witness: the record left behind by an empty attach (stored content
`""`, no override) has its extraction rejected with the store unchanged. -/
theorem C9_empty_content_rejection_witness :
    storeEmptyContent "case-1" = some emptyContentCase ∧
    getTargetDocRef emptyContentCase.directors (finOfIndex 0)
      (docTypeOfString "pan") = some ⟨sampleSlot "d0p" DocType.pan "", 0⟩ ∧
    extractPOST storeEmptyContent bodyNoOverride (Except.ok rawPan) =
      (.failure 400 "Document content is missing. Re-upload and retry extraction.",
        storeEmptyContent) :=
  ⟨by decide, by decide,
   C9_empty_content_rejection storeEmptyContent bodyNoOverride
     (Except.ok rawPan) "case-1" 0 "pan" emptyContentCase
     ⟨sampleSlot "d0p" DocType.pan "", 0⟩ rfl (by decide) rfl (Or.inl rfl)
     rfl (Or.inl rfl) (by decide) (by decide) (by decide)⟩

/-! ## C6: extract precondition rejection -/

/-- C6 counterexample: a request whose target director has NO slot of the
requested type fails with the missing-document error even though a content
payload override IS supplied (`imageBase64 = some "xyz"`), refuting the
"exactly when ... and no content payload was supplied as an override"
clause. The store is unchanged. -/
theorem C6_counterexample :
    extractPOST storeNoDocs bodyWithOverride (Except.ok rawPan) =
      (.failure 400 "No pan document uploaded for director 1",
        storeNoDocs) := by
  rfl

/-- C6 (amended): for a request with well-formed caseId on an existing
case: (1) if directorIndex is not 0 or 1, or documentType is not
pan/aadhaar, the request is rejected with a 400 validation error and the
store is unchanged; (2) otherwise a missing-document 400 failure occurs
exactly when the target director has no slot of that documentType
(regardless of any supplied override), or has such a slot but the
effective content (override `??` stored content) is empty; and every 400
failure leaves the store unchanged. -/
theorem C6_extract_precondition (s : Store) (body : ExtractRequestBody)
    (call : Except String RawData) (caseId : String) (n : Int) (dt : String)
    (c : Case)
    (h1 : body.caseId = some caseId) (h2 : caseId ≠ "")
    (h3 : body.directorIndex = some n) (h5 : body.documentType = some dt)
    (h7 : s caseId = some c) :
    (¬(n = 0 ∨ n = 1) ∨ ¬(dt = "pan" ∨ dt = "aadhaar") →
      ∃ m, extractPOST s body call = (ExtractOutcome.failure 400 m, s)) ∧
    ((n = 0 ∨ n = 1) → (dt = "pan" ∨ dt = "aadhaar") →
      (((∃ m, (extractPOST s body call).1 = ExtractOutcome.failure 400 m) ↔
        (getTargetDocRef c.directors (finOfIndex n) (docTypeOfString dt)
            = none ∨
          ∃ tref, getTargetDocRef c.directors (finOfIndex n)
              (docTypeOfString dt) = some tref ∧
            jsFalsy (nullishOr body.imageBase64 tref.doc.contentBase64)
              = true)) ∧
       (∀ m, (extractPOST s body call).1 = ExtractOutcome.failure 400 m →
         (extractPOST s body call).2 = s))) := by
  have hf1 : jsFalsy (some caseId) = false := by
    simp [jsFalsy]
    exact h2
  constructor
  · intro hbad
    by_cases hdt0 : dt = ""
    · refine ⟨"Missing required fields: caseId, directorIndex, documentType", ?_⟩
      unfold extractPOST
      rw [h1, h3, h5, hdt0]
      rw [if_pos (by rw [hf1]; rfl)]
    · by_cases hn : n = 0 ∨ n = 1
      · have hdt : ¬(dt = "pan" ∨ dt = "aadhaar") := by
          rcases hbad with h | h
          · exact absurd hn h
          · exact h
        refine ⟨"documentType must be pan or aadhaar", ?_⟩
        unfold extractPOST
        rw [h1, h3, h5]
        have hf2 : jsFalsy (some dt) = false := by
          simp [jsFalsy]
          exact hdt0
        rw [if_neg (by rw [hf1, hf2]; exact Bool.false_ne_true)]
        simp only [Option.getD_some]
        rw [if_neg (by rcases hn with rfl | rfl <;> omega)]
        rw [if_pos ?_]
        push_neg at hdt
        have hp : (some dt != some "pan") = true := by
          simp [hdt.1]
        have ha : (some dt != some "aadhaar") = true := by
          simp [hdt.2]
        rw [hp, ha]
        rfl
      · refine ⟨"directorIndex must be 0 or 1", ?_⟩
        unfold extractPOST
        rw [h1, h3, h5]
        have hf2 : jsFalsy (some dt) = false := by
          simp [jsFalsy]
          exact hdt0
        rw [if_neg (by rw [hf1, hf2]; exact Bool.false_ne_true)]
        simp only [Option.getD_some]
        rw [if_pos (by omega)]
  · intro h4 h6
    constructor
    · constructor
      · rintro ⟨m, hm⟩
        rcases hts : getTargetDocRef c.directors (finOfIndex n)
            (docTypeOfString dt) with _ | tref
        · exact Or.inl rfl
        · by_cases hfal : jsFalsy (nullishOr body.imageBase64
              tref.doc.contentBase64) = true
          · exact Or.inr ⟨tref, rfl, hfal⟩
          · exfalso
            have hpr := extractPOST_proceeds s body call caseId n dt c tref
              h1 h2 h3 h4 h5 h6 h7 hts (by simpa using hfal)
            rw [hpr] at hm
            cases call with
            | ok r =>
              exact mergePhase_not_400 _ _ _ _ _ _ m (by simpa using hm)
            | error msg =>
              exact errorPhase_not_400 _ _ _ _ _ m (by simpa using hm)
      · rintro (hnone | ⟨tref, hts, hfal⟩)
        · exact ⟨_, by rw [extractPOST_no_slot s body call caseId n dt c h1
            h2 h3 h4 h5 h6 h7 hnone]⟩
        · exact ⟨_, by rw [extractPOST_missing_content s body call caseId n
            dt c tref h1 h2 h3 h4 h5 h6 h7 hts hfal]⟩
    · intro m hm
      rcases hts : getTargetDocRef c.directors (finOfIndex n)
          (docTypeOfString dt) with _ | tref
      · rw [extractPOST_no_slot s body call caseId n dt c h1 h2 h3 h4 h5 h6
          h7 hts]
      · by_cases hfal : jsFalsy (nullishOr body.imageBase64
            tref.doc.contentBase64) = true
        · rw [extractPOST_missing_content s body call caseId n dt c tref h1
            h2 h3 h4 h5 h6 h7 hts hfal]
        · exfalso
          have hpr := extractPOST_proceeds s body call caseId n dt c tref
            h1 h2 h3 h4 h5 h6 h7 hts (by simpa using hfal)
          rw [hpr] at hm
          cases call with
          | ok r =>
            exact mergePhase_not_400 _ _ _ _ _ _ m (by simpa using hm)
          | error msg =>
            exact errorPhase_not_400 _ _ _ _ _ m (by simpa using hm)

/-- C6 witness: applied to a case without a PAN slot for director 0 and a
request that does supply an override: the missing-document 400 occurs. -/
theorem C6_extract_precondition_witness :
    storeNoDocs "case-1" = some caseNoDocs ∧
    (∃ m, (extractPOST storeNoDocs bodyWithOverride (Except.ok rawPan)).1 =
      ExtractOutcome.failure 400 m) :=
  ⟨by decide,
   ((C6_extract_precondition storeNoDocs bodyWithOverride (Except.ok rawPan)
      "case-1" 0 "pan" caseNoDocs rfl (by decide) rfl rfl
      (by decide)).2 (Or.inl rfl) (Or.inl rfl)).1.mpr
    (Or.inl (by decide))⟩

/-! ## C7: conflict detection at merge -/

/-- C7 counterexample: a slot REPLACED while extraction was in flight is
not detected. The extraction started from slot `d0p-old`; at merge time
the director's PAN slot is the replacement `d0p-new`. The merge reports
success (not a conflict) and writes its stale result into the replacement
slot. -/
theorem C7_counterexample :
    (mergePhase storeReplaced "case-1" 0 DocType.pan rawPan "OLD").1 =
      ExtractOutcome.success rawPan ∧
    (((mergePhase storeReplaced "case-1" 0 DocType.pan rawPan "OLD").2
        "case-1").bind
      (fun c => getTargetDocRef c.directors 0 DocType.pan)).map
      (fun tref => (tref.doc.id, tref.doc.status, tref.doc.extractedData)) =
      some ("d0p-new", DocStatus.done, some rawPan) := by
  refine ⟨by decide, by decide⟩

/-- C7 (amended): only REMOVAL is detected: if at merge time the target
director has no slot of the target documentType any more, the merge phase
reports a 409 conflict to the caller and performs no write (the store is
returned unchanged); a slot replaced by a same-type re-upload is found by
the type-based lookup and is overwritten instead (see the
counterexample). -/
theorem C7_conflict_detection (s : Store) (caseId : String) (c : Case)
    (i : Fin 2) (t : DocType) (raw : RawData) (content : String)
    (hc : s caseId = some c)
    (hgone : getTargetDocRef c.directors i t = none) :
    mergePhase s caseId i t raw content =
      (.failure 409 "Document was removed while extraction was in progress.",
        s) := by
  unfold mergePhase
  rw [hc]
  dsimp only
  unfold mergedDoneDirectors
  rw [hgone]

/-- C7 witness: the conflict branch taken concretely on a case whose
director 0 has no PAN slot at merge time. -/
theorem C7_conflict_detection_witness :
    storeNoDocs "case-1" = some caseNoDocs ∧
    getTargetDocRef caseNoDocs.directors 0 DocType.pan = none ∧
    mergePhase storeNoDocs "case-1" 0 DocType.pan rawPan "AAA" =
      (.failure 409 "Document was removed while extraction was in progress.",
        storeNoDocs) :=
  ⟨by decide, by decide,
   C7_conflict_detection storeNoDocs "case-1" caseNoDocs 0 DocType.pan
     rawPan "AAA" (by decide) (by decide)⟩

/-! ## C8: error-branch framing -/

/-- C8: on external-call failure the coordinator re-reads the latest record
and writes status `error` into only the target slot: the resulting store
holds a record whose target slot equals the old slot with status `error`,
every other slot of the target director is unchanged, the target director
is otherwise field-for-field unchanged, and the non-target director is
entirely unchanged; the error is reported as a 502 response, never as an
unhandled fault (the handler totally returns this response). -/
theorem C8_error_framing (s : Store) (caseId : String) (c : Case)
    (i : Fin 2) (t : DocType) (tref : TargetDocRef) (msg : String)
    (hc : s caseId = some c)
    (htref : getTargetDocRef c.directors i t = some tref) :
    ∃ md : Directors, errorDirectors c.directors i t = some md ∧
      errorPhase s caseId i t msg =
        (ExtractOutcome.failure 502 msg,
          storeSet s caseId (mergeCase c
            { directors := some md
              inferenceMode := some InferenceMode.modal
              status := some (deriveStatus md) })) ∧
      getTargetDocRef md i t =
        some ⟨{ tref.doc with status := DocStatus.error }, tref.docIndex⟩ ∧
      (∀ k, k ≠ tref.docIndex →
        (dirGet md i).documents.get? k =
          (dirGet c.directors i).documents.get? k) ∧
      { dirGet md i with documents := (dirGet c.directors i).documents }
        = dirGet c.directors i ∧
      (∀ i', i' ≠ i → dirGet md i' = dirGet c.directors i') := by
  obtain ⟨hidx, hget, htyp⟩ := getTargetDocRef_inv _ _ _ _ htref
  have herr : errorDirectors c.directors i t =
      some (dirSet c.directors i
        { dirGet c.directors i with
          documents := (dirGet c.directors i).documents.set tref.docIndex
            { tref.doc with status := DocStatus.error } }) := by
    unfold errorDirectors
    rw [htref]
  refine ⟨_, herr, ?_, ?_, ?_, ?_, ?_⟩
  · unfold errorPhase
    rw [hc]
    dsimp only
    rw [herr]
    dsimp only
    unfold commitWrite updateCase
    rw [hc]
  · exact getTargetDocRef_after_update c.directors i t tref htref _ _ rfl
      (by simpa using htyp)
  · intro k hk
    rw [dirGet_dirSet_same]
    exact get?_set_ne _ _ _ _ (fun hcon => hk hcon.symm)
  · rw [dirGet_dirSet_same]
  · intro i' hi'
    exact dirGet_dirSet_ne _ _ _ _ (Ne.symm hi')

/-- C8 witness: the error write applied concretely to director 0's PAN
slot of `caseWithAllSlots`. -/
theorem C8_error_framing_witness :
    storeAllSlots "case-1" = some caseWithAllSlots ∧
    getTargetDocRef caseWithAllSlots.directors 0 DocType.pan =
      some ⟨sampleSlot "d0p" DocType.pan "AAA", 0⟩ ∧
    (∃ md : Directors,
      errorDirectors caseWithAllSlots.directors 0 DocType.pan = some md ∧
      errorPhase storeAllSlots "case-1" 0 DocType.pan "boom" =
        (ExtractOutcome.failure 502 "boom",
          storeSet storeAllSlots "case-1" (mergeCase caseWithAllSlots
            { directors := some md
              inferenceMode := some InferenceMode.modal
              status := some (deriveStatus md) })) ∧
      getTargetDocRef md 0 DocType.pan =
        some ⟨{ sampleSlot "d0p" DocType.pan "AAA" with
          status := DocStatus.error }, 0⟩ ∧
      (∀ k, k ≠ 0 →
        (dirGet md 0).documents.get? k =
          (dirGet caseWithAllSlots.directors 0).documents.get? k) ∧
      { dirGet md 0 with
        documents := (dirGet caseWithAllSlots.directors 0).documents }
        = dirGet caseWithAllSlots.directors 0 ∧
      (∀ i', i' ≠ 0 → dirGet md i' =
        dirGet caseWithAllSlots.directors i')) :=
  ⟨by decide, by decide,
   C8_error_framing storeAllSlots "case-1" caseWithAllSlots 0 DocType.pan
     ⟨sampleSlot "d0p" DocType.pan "AAA", 0⟩ "boom" (by decide) (by decide)⟩

/-! ## Lemmas about the merge-phase write (towards C1) -/

theorem mergedDone_spec (dirs : Directors) (i : Fin 2) (t : DocType)
    (raw : RawData) (b : String) (tref : TargetDocRef)
    (htref : getTargetDocRef dirs i t = some tref)
    (ht : t = DocType.pan ∨ t = DocType.aadhaar) :
    ∃ md, mergedDoneDirectors dirs i t raw b = some md ∧
      dirsContainDone md i t raw ∧
      (∀ i' t', i ≠ i' ∨ t ≠ t' →
        getTargetDocRef md i' t' = getTargetDocRef dirs i' t') ∧
      (∀ i', i' ≠ i → dirGet md i' = dirGet dirs i') ∧
      (t = DocType.pan →
        (dirGet md i).aadhaarData = (dirGet dirs i).aadhaarData) ∧
      (t = DocType.aadhaar →
        (dirGet md i).panData = (dirGet dirs i).panData) := by
  obtain ⟨hidx, hget, htyp⟩ := getTargetDocRef_inv _ _ _ _ htref
  rcases ht with rfl | rfl
  · have hmd : mergedDoneDirectors dirs i DocType.pan raw b =
        some (dirSet dirs i
          { dirGet dirs i with
            documents := (dirGet dirs i).documents.set tref.docIndex
              { tref.doc with
                contentBase64 := some (tref.doc.contentBase64.getD b)
                status := DocStatus.done
                extractedData := some raw }
            panData := some (toPanData raw)
            validated := false }) := by
      unfold mergedDoneDirectors
      rw [htref]
      dsimp only
      rw [if_pos rfl]
    refine ⟨_, hmd,
      ⟨⟨⟨{ tref.doc with
            contentBase64 := some (tref.doc.contentBase64.getD b)
            status := DocStatus.done
            extractedData := some raw }, tref.docIndex⟩, ?_, rfl, rfl⟩,
        ?_, ?_⟩, ?_, ?_, ?_, ?_⟩
    · exact getTargetDocRef_after_update dirs i DocType.pan tref htref _ _
        rfl htyp
    · intro _
      rw [dirGet_dirSet_same]
    · intro habs
      exact DocType.noConfusion habs
    · intro i' t' hne
      exact getTargetDocRef_after_update_ne dirs i DocType.pan tref htref _
        { tref.doc with
          contentBase64 := some (tref.doc.contentBase64.getD b)
          status := DocStatus.done
          extractedData := some raw } rfl htyp i' t' hne
    · intro i' hi'
      exact dirGet_dirSet_ne _ _ _ _ (Ne.symm hi')
    · intro _
      rw [dirGet_dirSet_same]
    · intro habs
      exact DocType.noConfusion habs
  · have hmd : mergedDoneDirectors dirs i DocType.aadhaar raw b =
        some (dirSet dirs i
          { dirGet dirs i with
            documents := (dirGet dirs i).documents.set tref.docIndex
              { tref.doc with
                contentBase64 := some (tref.doc.contentBase64.getD b)
                status := DocStatus.done
                extractedData := some raw }
            aadhaarData := some (toAadhaarData raw)
            validated := false }) := by
      unfold mergedDoneDirectors
      rw [htref]
      dsimp only
      rw [if_neg (fun hcon => DocType.noConfusion hcon)]
    refine ⟨_, hmd,
      ⟨⟨⟨{ tref.doc with
            contentBase64 := some (tref.doc.contentBase64.getD b)
            status := DocStatus.done
            extractedData := some raw }, tref.docIndex⟩, ?_, rfl, rfl⟩,
        ?_, ?_⟩, ?_, ?_, ?_, ?_⟩
    · exact getTargetDocRef_after_update dirs i DocType.aadhaar tref htref _
        _ rfl htyp
    · intro habs
      exact DocType.noConfusion habs
    · intro _
      rw [dirGet_dirSet_same]
    · intro i' t' hne
      exact getTargetDocRef_after_update_ne dirs i DocType.aadhaar tref
        htref _
        { tref.doc with
          contentBase64 := some (tref.doc.contentBase64.getD b)
          status := DocStatus.done
          extractedData := some raw } rfl htyp i' t' hne
    · intro i' hi'
      exact dirGet_dirSet_ne _ _ _ _ (Ne.symm hi')
    · intro habs
      exact DocType.noConfusion habs
    · intro _
      rw [dirGet_dirSet_same]

theorem dirsContainDone_preserved (dirs md : Directors) (i i2 : Fin 2)
    (t t2 : DocType) (raw r2 : RawData) (b2 : String)
    (hprev : dirsContainDone dirs i t raw)
    (ht2 : t2 = DocType.pan ∨ t2 = DocType.aadhaar)
    (hne : i2 ≠ i ∨ t2 ≠ t)
    (hmd : mergedDoneDirectors dirs i2 t2 r2 b2 = some md) :
    dirsContainDone md i t raw := by
  obtain ⟨⟨tref, htref, hdone, hdata⟩, hpan, haad⟩ := hprev
  rcases hts : getTargetDocRef dirs i2 t2 with _ | tref2
  · unfold mergedDoneDirectors at hmd
    rw [hts] at hmd
    exact absurd hmd (by simp)
  · obtain ⟨mdX, hmdX, hdoneX, hframeX, hdirX, hcrossP, hcrossA⟩ :=
      mergedDone_spec dirs i2 t2 r2 b2 tref2 hts ht2
    rw [hmdX] at hmd
    simp only [Option.some.injEq] at hmd
    subst hmd
    refine ⟨⟨tref, ?_, hdone, hdata⟩, ?_, ?_⟩
    · rw [hframeX i t hne]
      exact htref
    · intro htp
      by_cases hi : i2 = i
      · subst hi
        have ht2a : t2 = DocType.aadhaar := by
          rcases ht2 with rfl | rfl
          · rcases hne with h | h
            · exact absurd rfl h
            · rw [htp] at h
              exact absurd rfl h
          · rfl
        rw [hcrossA ht2a]
        exact hpan htp
      · rw [hdirX i (fun hh => hi hh.symm)]
        exact hpan htp
    · intro hta
      by_cases hi : i2 = i
      · subst hi
        have ht2p : t2 = DocType.pan := by
          rcases ht2 with rfl | rfl
          · rfl
          · rcases hne with h | h
            · exact absurd rfl h
            · rw [hta] at h
              exact absurd rfl h
        rw [hcrossP ht2p]
        exact haad hta
      · rw [hdirX i (fun hh => hi hh.symm)]
        exact haad hta

theorem mergePhase_success (s : Store) (caseId : String) (c : Case)
    (i : Fin 2) (t : DocType) (raw : RawData) (b : String) (md : Directors)
    (hc : s caseId = some c)
    (hmd : mergedDoneDirectors c.directors i t raw b = some md) :
    mergePhase s caseId i t raw b =
      (ExtractOutcome.success raw,
        storeSet s caseId (mergeCase c
          { directors := some md
            inferenceMode := some InferenceMode.modal
            status := some (deriveStatus md) })) := by
  unfold mergePhase
  rw [hc]
  dsimp only
  rw [hmd]
  dsimp only
  unfold commitWrite updateCase
  rw [hc]

/-! ## C1: merge commutativity -/

/-- C1: for every case record and every pair of extract merge writes on
distinct (director, documentType) pairs whose slots exist, applying the
two merge-phase writes (each re-reading the latest record and writing
`done` plus the extracted data into only its own target slot) in either
completion order succeeds, and the final persisted record contains the
`done` result of both extractions, independent of order. -/
theorem C1_merge_commutativity (s : Store) (caseId : String) (c : Case)
    (i1 i2 : Fin 2) (t1 t2 : DocType) (r1 r2 : RawData) (b1 b2 : String)
    (tref1 tref2 : TargetDocRef)
    (hc : s caseId = some c)
    (ht1 : t1 = DocType.pan ∨ t1 = DocType.aadhaar)
    (ht2 : t2 = DocType.pan ∨ t2 = DocType.aadhaar)
    (hne : i1 ≠ i2 ∨ t1 ≠ t2)
    (h1 : getTargetDocRef c.directors i1 t1 = some tref1)
    (h2 : getTargetDocRef c.directors i2 t2 = some tref2) :
    (∃ sA sAB cAB,
      mergePhase s caseId i1 t1 r1 b1 = (ExtractOutcome.success r1, sA) ∧
      mergePhase sA caseId i2 t2 r2 b2 = (ExtractOutcome.success r2, sAB) ∧
      sAB caseId = some cAB ∧
      containsDoneResult cAB i1 t1 r1 ∧ containsDoneResult cAB i2 t2 r2) ∧
    (∃ sB sBA cBA,
      mergePhase s caseId i2 t2 r2 b2 = (ExtractOutcome.success r2, sB) ∧
      mergePhase sB caseId i1 t1 r1 b1 = (ExtractOutcome.success r1, sBA) ∧
      sBA caseId = some cBA ∧
      containsDoneResult cBA i1 t1 r1 ∧ containsDoneResult cBA i2 t2 r2) := by
  constructor
  · obtain ⟨mdA, hmdA, hdoneA, hframeA, hdirA, hcrossPA, hcrossAA⟩ :=
      mergedDone_spec c.directors i1 t1 r1 b1 tref1 h1 ht1
    have hwriteA := mergePhase_success s caseId c i1 t1 r1 b1 mdA hc hmdA
    have hcA : (storeSet s caseId (mergeCase c
        { directors := some mdA
          inferenceMode := some InferenceMode.modal
          status := some (deriveStatus mdA) })) caseId =
        some (mergeCase c
          { directors := some mdA
            inferenceMode := some InferenceMode.modal
            status := some (deriveStatus mdA) }) := storeSet_same _ _ _
    have htref2A : getTargetDocRef (mergeCase c
        { directors := some mdA
          inferenceMode := some InferenceMode.modal
          status := some (deriveStatus mdA) }).directors i2 t2 =
        some tref2 := by
      show getTargetDocRef mdA i2 t2 = some tref2
      rw [hframeA i2 t2 hne]
      exact h2
    obtain ⟨mdAB, hmdAB, hdoneAB, hframeAB, hdirAB, hcrossPAB, hcrossAAB⟩ :=
      mergedDone_spec mdA i2 t2 r2 b2 tref2 (by exact htref2A) ht2
    have hwriteAB := mergePhase_success _ caseId _ i2 t2 r2 b2 mdAB hcA
      (by exact hmdAB)
    refine ⟨_, _, _, hwriteA, hwriteAB, storeSet_same _ _ _, ?_, ?_⟩
    · exact dirsContainDone_preserved mdA mdAB i1 i2 t1 t2 r1 r2 b2 hdoneA
        ht2 (by tauto) hmdAB
    · exact hdoneAB
  · obtain ⟨mdB, hmdB, hdoneB, hframeB, hdirB, hcrossPB, hcrossAB'⟩ :=
      mergedDone_spec c.directors i2 t2 r2 b2 tref2 h2 ht2
    have hwriteB := mergePhase_success s caseId c i2 t2 r2 b2 mdB hc hmdB
    have hcB : (storeSet s caseId (mergeCase c
        { directors := some mdB
          inferenceMode := some InferenceMode.modal
          status := some (deriveStatus mdB) })) caseId =
        some (mergeCase c
          { directors := some mdB
            inferenceMode := some InferenceMode.modal
            status := some (deriveStatus mdB) }) := storeSet_same _ _ _
    have htref1B : getTargetDocRef (mergeCase c
        { directors := some mdB
          inferenceMode := some InferenceMode.modal
          status := some (deriveStatus mdB) }).directors i1 t1 =
        some tref1 := by
      show getTargetDocRef mdB i1 t1 = some tref1
      rw [hframeB i1 t1 (by tauto)]
      exact h1
    obtain ⟨mdBA, hmdBA, hdoneBA, hframeBA, hdirBA, hcrossPBA, hcrossABA⟩ :=
      mergedDone_spec mdB i1 t1 r1 b1 tref1 (by exact htref1B) ht1
    have hwriteBA := mergePhase_success _ caseId _ i1 t1 r1 b1 mdBA hcB
      (by exact hmdBA)
    refine ⟨_, _, _, hwriteB, hwriteBA, storeSet_same _ _ _, ?_, ?_⟩
    · exact hdoneBA
    · exact dirsContainDone_preserved mdB mdBA i2 i1 t2 t1 r2 r1 b1 hdoneB
        ht1 (by tauto) hmdBA

/-- C1 witness: both orders of the two merge writes (director 0's PAN and
director 1's Aadhaar) on `caseWithAllSlots`. -/
theorem C1_merge_commutativity_witness :
    storeAllSlots "case-1" = some caseWithAllSlots ∧
    getTargetDocRef caseWithAllSlots.directors 0 DocType.pan =
      some ⟨sampleSlot "d0p" DocType.pan "AAA", 0⟩ ∧
    getTargetDocRef caseWithAllSlots.directors 1 DocType.aadhaar =
      some ⟨sampleSlot "d1a" DocType.aadhaar "DDD", 1⟩ ∧
    ((∃ sA sAB cAB,
      mergePhase storeAllSlots "case-1" 0 DocType.pan rawPan "AAA" =
        (ExtractOutcome.success rawPan, sA) ∧
      mergePhase sA "case-1" 1 DocType.aadhaar rawAadhaar "DDD" =
        (ExtractOutcome.success rawAadhaar, sAB) ∧
      sAB "case-1" = some cAB ∧
      containsDoneResult cAB 0 DocType.pan rawPan ∧
      containsDoneResult cAB 1 DocType.aadhaar rawAadhaar) ∧
    (∃ sB sBA cBA,
      mergePhase storeAllSlots "case-1" 1 DocType.aadhaar rawAadhaar "DDD" =
        (ExtractOutcome.success rawAadhaar, sB) ∧
      mergePhase sB "case-1" 0 DocType.pan rawPan "AAA" =
        (ExtractOutcome.success rawPan, sBA) ∧
      sBA "case-1" = some cBA ∧
      containsDoneResult cBA 0 DocType.pan rawPan ∧
      containsDoneResult cBA 1 DocType.aadhaar rawAadhaar)) :=
  ⟨by decide, by decide, by decide,
   C1_merge_commutativity storeAllSlots "case-1" caseWithAllSlots 0 1
     DocType.pan DocType.aadhaar rawPan rawAadhaar "AAA" "DDD"
     ⟨sampleSlot "d0p" DocType.pan "AAA", 0⟩
     ⟨sampleSlot "d1a" DocType.aadhaar "DDD", 1⟩
     (by decide) (Or.inl rfl) (Or.inr rfl) (Or.inl (by decide))
     (by decide) (by decide)⟩

end CAA
